import Mathlib

/-!
Verification of `deadlocks_debugger`'s instrumented mutex (`src/mutex.rs`).

The repository ships a single source file, `src/mutex.rs`, which delegates
all state transitions to a `lock_manager::LockManager` whose code is not
part of the sources.  The manager and its `LockRepresentation` are therefore
modelled from the specification (§3, §4.1): a table mapping lock identities
to a lock state consisting of a Free/Held status and a waiter set, a
`create_lock` allocating fresh identities, a non-blocking Free→Held
compare-and-set `try_write_lock`, a waiter registration `subscribe_write`,
an unconditional `unlock` clearing the waiters, and a read-only `analyse`
pass over the table.

Machine details abstracted: elapsed time is a natural number of
milliseconds (the source's `Duration::from_secs(1)` threshold becomes
`1000`); the Coordinator's internal lock (`manager.write_lock()`) serialises
every table operation, so each operation of `mutex.rs` is embedded as an
atomic function from system state to system state, and the order of the
individual actions inside one critical section is recorded as an explicit
event trace.  The `.unwrap()` on the table lookup is embedded as `Option`
(`none` = panic).
-/

namespace DeadlocksDebugger

/-- Status of one lock in the Coordinator's table: `Held` means some thread
currently holds the handle's guard (spec §3). -/
inductive Status where
  | Free : Status
  | Held : Status
deriving DecidableEq, Repr

/-- Modelled from the spec: the missing `lock_manager::LockRepresentation` —
one lock's state in the Coordinator's table: a Free/Held `status` and a
set of pending-acquirer thread tokens `waiters` (spec §3 "Lock State"). -/
structure LockRepresentation where
  status : Status
  waiters : List Nat
deriving DecidableEq, Repr

/-- Modelled from the spec: the missing `LockRepresentation::try_write_lock` —
"attempt a non-blocking status transition Free→Held (succeeds iff status was
Free, otherwise no-op and reports failure)" (spec §4.1). -/
def LockRepresentation.try_write_lock (r : LockRepresentation) :
    Bool × LockRepresentation :=
  match r.status with
  | Status.Free => (true, { r with status := Status.Held })
  | Status.Held => (false, r)

/-- Modelled from the spec: the missing `LockRepresentation::subscribe_write` —
"record the calling thread as a waiter" (spec §4.1); the waiter set grows by
the calling thread's token. -/
def LockRepresentation.subscribe_write (tid : Nat) (r : LockRepresentation) :
    LockRepresentation :=
  if tid ∈ r.waiters then r else { r with waiters := tid :: r.waiters }

/-- Modelled from the spec: the missing `LockRepresentation::unlock` —
"transition Held→Free (unconditionally; also clears waiters for that
identity)" (spec §4.1). -/
def LockRepresentation.unlock (_r : LockRepresentation) : LockRepresentation :=
  { status := Status.Free, waiters := [] }

/-- Lookup of an identity in the Coordinator's table
(`guard.locks.get_mut(&key)`); `none` models an absent entry, on which the
source's `.unwrap()` panics. -/
def lookupLock (k : Nat) : List (Nat × LockRepresentation) →
    Option LockRepresentation
  | [] => none
  | (k2, r) :: rest => if k2 = k then some r else lookupLock k rest

/-- Writing back through the `get_mut` reference: replace the entry of
identity `k` by `r` (first occurrence). -/
def updateLock (k : Nat) (r : LockRepresentation) :
    List (Nat × LockRepresentation) → List (Nat × LockRepresentation)
  | [] => []
  | (k2, r2) :: rest =>
      if k2 = k then (k2, r) :: rest else (k2, r2) :: updateLock k r rest

/-- Modelled from the spec: the missing `lock_manager::LockManager` — the
Coordinator singleton owning "a mapping from lock identity to lock state"
and allocating identities (spec §2, §4.1).  Its internal short-held lock
(`write_lock`) is implicit: every embedded operation is one critical
section. -/
structure LockManager where
  next_key : Nat
  locks : List (Nat × LockRepresentation)
deriving DecidableEq, Repr

/-- Modelled from the spec: the missing `LockManager::create_lock` —
"allocates a fresh, never-yet-used identity, inserts a Free Lock State,
returns the identity" (spec §4.1 `register`). -/
def LockManager.create_lock (m : LockManager) : Nat × LockManager :=
  (m.next_key,
   { next_key := m.next_key + 1,
     locks := (m.next_key, ⟨Status.Free, []⟩) :: m.locks })

/-- Modelled from the spec: the missing `analyse` — "inspects the full table
(all identities' statuses and waiter sets) and reports diagnostics for locks
that have accumulated waiters while Held"; one bounded read-only pass
(spec §4.1). -/
def LockManager.analyse (m : LockManager) : List Nat :=
  (m.locks.filter
    (fun p => decide (p.2.status = Status.Held) && !p.2.waiters.isEmpty)).map
    (fun p => p.1)

/-- The handle `Mutex<T>` of `src/mutex.rs`: its table key, its sticky
`poisoned` flag and the protected value (the `manager` Arc is the ambient
`LockManager` of the system state). -/
structure Mutex (T : Type) where
  key : Nat
  poisoned : Bool
  inner : T
deriving DecidableEq, Repr

/-- Embeds `MutexGuard<T>` of `src/mutex.rs`: holds the (mutably borrowed) mutex. -/
structure MutexGuard (T : Type) where
  inner : Mutex T
deriving DecidableEq, Repr

/-- The state a `mutex.rs` operation touches: the global manager's table and
the one handle it operates on. -/
structure SysState (T : Type) where
  manager : LockManager
  mux : Mutex T
deriving DecidableEq, Repr

/-- Embeds `Mutex::new(inner)`: asks the manager for a fresh key and starts
unpoisoned (`src/mutex.rs:14-23`). -/
def Mutex.new (m : LockManager) (inner : T) : SysState T :=
  let p := m.create_lock
  { manager := p.2, mux := { key := p.1, poisoned := false, inner := inner } }

/-- Embeds `std::sync::LockResult`: `Err(PoisonError::new(a))` still carries the
value `a`. -/
inductive LockResult (A : Type) where
  | ok : A → LockResult A
  | poisonErr : A → LockResult A
deriving DecidableEq, Repr

/-- The value carried by a `LockResult` (present in both variants). -/
def LockResult.val : LockResult A → A
  | LockResult.ok a => a
  | LockResult.poisonErr a => a

/-- Whether a `LockResult` is the `Err(PoisonError)` variant. -/
def LockResult.isPoisoned : LockResult A → Bool
  | LockResult.ok _ => false
  | LockResult.poisonErr _ => true

/-- Embeds `std::sync::TryLockResult`: `Ok(guard)`,
`Err(TryLockError::Poisoned(PoisonError::new(guard)))` (still carrying the
guard), or `Err(TryLockError::WouldBlock)`. -/
inductive TryLockResult (G : Type) where
  | ok : G → TryLockResult G
  | poisonErr : G → TryLockResult G
  | wouldBlock : TryLockResult G
deriving DecidableEq, Repr

/-- Whether a `TryLockResult` is the `Poisoned` variant. -/
def TryLockResult.isPoisoned : TryLockResult G → Bool
  | TryLockResult.poisonErr _ => true
  | _ => false

/-- Whether a `TryLockResult` carries a guard (i.e. acquisition won). -/
def TryLockResult.hasGuard : TryLockResult G → Bool
  | TryLockResult.ok _ => true
  | TryLockResult.poisonErr _ => true
  | TryLockResult.wouldBlock => false

/-- Embeds `Mutex::into_inner` (`src/mutex.rs:25-31`): consumes the handle and
returns the protected value, poison-wrapped iff the sticky flag is set. -/
def Mutex.into_inner (m : Mutex T) : LockResult T :=
  if m.poisoned then LockResult.poisonErr m.inner else LockResult.ok m.inner

/-- Embeds `Mutex::get_mut` (`src/mutex.rs:35-42`): hands back the (mutable
reference to the) protected value, poison-wrapped iff the sticky flag is
set. -/
def Mutex.get_mut (m : Mutex T) : LockResult T :=
  if m.poisoned then LockResult.poisonErr m.inner else LockResult.ok m.inner

/-- Embeds `Mutex::is_poisoned` (`src/mutex.rs:44-46`). -/
def Mutex.is_poisoned (m : Mutex T) : Bool :=
  m.poisoned

/-- Embeds `Mutex::try_lock` (`src/mutex.rs:48-63`): one critical section of the
manager's internal lock; looks the key up (`none` = the `.unwrap()` panic),
performs the Free→Held compare-and-set through the `get_mut` reference, and
on success returns the guard, poison-wrapped iff `is_poisoned()`; on failure
returns `WouldBlock`. -/
def Mutex.try_lock (s : SysState T) :
    Option (TryLockResult (MutexGuard T) × SysState T) :=
  match lookupLock s.mux.key s.manager.locks with
  | none => none
  | some representation =>
    let p := representation.try_write_lock
    let s2 : SysState T :=
      { s with manager :=
          { s.manager with locks := updateLock s.mux.key p.2 s.manager.locks } }
    if p.1 then
      let returned_guard : MutexGuard T := ⟨s.mux⟩
      if s.mux.is_poisoned then
        some (TryLockResult.poisonErr returned_guard, s2)
      else
        some (TryLockResult.ok returned_guard, s2)
    else
      some (TryLockResult.wouldBlock, s2)

/-- Outcome of a single iteration of `Mutex::lock`'s loop: a return (with
the result) or a retry (tight under the 1 s threshold, or after the
subscribe/analyse/yield slow path above it). -/
inductive LockOutcome (G : Type) where
  | ret : LockResult G → LockOutcome G
  | retryTight : LockOutcome G
  | retrySlow : LockOutcome G
deriving DecidableEq, Repr

/-- One iteration of the loop of `Mutex::lock` (`src/mutex.rs:65-88`),
parameterised by the elapsed milliseconds since `start` and the calling
thread's token: a critical section that looks the key up, tries the
Free→Held compare-and-set, and on failure past the 1-second threshold
registers the thread (`subscribe_write`), runs `analyse` and yields — all
before the critical section ends. -/
def Mutex.lockIteration (elapsedMs tid : Nat) (s : SysState T) :
    Option (LockOutcome (MutexGuard T) × SysState T) :=
  match lookupLock s.mux.key s.manager.locks with
  | none => none
  | some representation =>
    let p := representation.try_write_lock
    if p.1 then
      let s2 : SysState T :=
        { s with manager :=
            { s.manager with
                locks := updateLock s.mux.key p.2 s.manager.locks } }
      let returned_guard : MutexGuard T := ⟨s.mux⟩
      if s.mux.is_poisoned then
        some (LockOutcome.ret (LockResult.poisonErr returned_guard), s2)
      else
        some (LockOutcome.ret (LockResult.ok returned_guard), s2)
    else if 1000 < elapsedMs then
      let r2 := p.2.subscribe_write tid
      let s2 : SysState T :=
        { s with manager :=
            { s.manager with
                locks := updateLock s.mux.key r2 s.manager.locks } }
      some (LockOutcome.retrySlow, s2)
    else
      let s2 : SysState T :=
        { s with manager :=
            { s.manager with
                locks := updateLock s.mux.key p.2 s.manager.locks } }
      some (LockOutcome.retryTight, s2)

/-- Embeds `MutexGuard::drop` (`src/mutex.rs:104-112`): a critical section that
unlocks the key's entry (Held→Free, clearing waiters) and then, if the
thread is panicking, sets the handle's `poisoned` flag — in that order. -/
def MutexGuard.dropGuard (panicking : Bool) (s : SysState T) :
    Option (SysState T) :=
  match lookupLock s.mux.key s.manager.locks with
  | none => none
  | some representation =>
    let s2 : SysState T :=
      { s with manager :=
          { s.manager with
              locks := updateLock s.mux.key representation.unlock
                s.manager.locks } }
    if panicking then
      some { s2 with mux := { s2.mux with poisoned := true } }
    else
      some s2

/-- The state of `MutexGuard::drop` after the `unlock()` statement
(`src/mutex.rs:107`) and before the `panicking` check: the intermediate
state inside the critical section. -/
def MutexGuard.dropGuardMid (s : SysState T) : Option (SysState T) :=
  match lookupLock s.mux.key s.manager.locks with
  | none => none
  | some representation =>
    some { s with manager :=
        { s.manager with
            locks := updateLock s.mux.key representation.unlock
              s.manager.locks } }

/-- Status of the handle's own entry in the table. -/
def SysState.statusOf (s : SysState T) : Option Status :=
  (lookupLock s.mux.key s.manager.locks).map (fun r => r.status)

/-!
Event traces.  Each operation of `mutex.rs` runs inside one critical
section of the Coordinator's internal lock (`manager.write_lock()`); the
traces below record, in source order, the actions performed inside it,
including when the internal lock itself is taken and released (the latter
is the implicit drop of the Rust `guard` at the end of its scope).
-/

/-- The observable actions of one `mutex.rs` operation. -/
inductive Event where
  | acquireTableLock : Event
  | tryWriteLock : Bool → Event
  | subscribeWrite : Event
  | analyseCall : Event
  | yieldNow : Event
  | unlockEntry : Event
  | setPoisonedFlag : Event
  | releaseTableLock : Event
deriving DecidableEq, Repr

/-- Index of the first occurrence of `e` in `l` (length of `l` if absent). -/
def idxOf (e : Event) : List Event → Nat
  | [] => 0
  | x :: xs => if x = e then 0 else idxOf e xs + 1

/-- Trace of one iteration of `Mutex::lock`'s loop (`src/mutex.rs:69-87`):
the `write_lock` is taken, the compare-and-set attempted; on failure past
the threshold the waiter registration, the `analyse` call and
`yield_now()` all run before the Rust `guard` goes out of scope at the end
of the loop body, which is when the internal lock is released. -/
def lockIterationEvents (success : Bool) (elapsedMs : Nat) : List Event :=
  Event.acquireTableLock :: Event.tryWriteLock success ::
    (if success then
      [Event.releaseTableLock]
    else if 1000 < elapsedMs then
      [Event.subscribeWrite, Event.analyseCall, Event.yieldNow,
       Event.releaseTableLock]
    else
      [Event.releaseTableLock])

/-- Trace of `Mutex::try_lock` (`src/mutex.rs:48-63`): one critical section,
one compare-and-set attempt, no other action. -/
def tryLockEvents (success : Bool) : List Event :=
  [Event.acquireTableLock, Event.tryWriteLock success,
   Event.releaseTableLock]

/-- Trace of `MutexGuard::drop` (`src/mutex.rs:104-112`): the `unlock()`
comes first, the `poisoned = true` write (when panicking) second, and the
internal lock is released when `guard` goes out of scope at the end of the
function. -/
def dropGuardEvents (panicking : Bool) : List Event :=
  Event.acquireTableLock :: Event.unlockEntry ::
    (if panicking then [Event.setPoisonedFlag, Event.releaseTableLock]
     else [Event.releaseTableLock])

/-!
Concurrent acquisition model.  Every mutation of a lock's table entry in
`mutex.rs` happens inside the Coordinator's internal lock, so the
interleaving of any number of threads contending for one handle is a
sequence of atomic table operations.  `ConcState` pairs the handle's table
entry with the number of outstanding guards; `ConcStep` has one case per
atomic operation the source performs on the entry, and `Reach` is the set
of states reachable from the initial Free entry with no guard.
-/

/-- A handle's table entry together with its number of outstanding guards. -/
structure ConcState where
  rep : LockRepresentation
  guards : Nat
deriving DecidableEq, Repr

/-- One atomic table operation of a contending thread: a winning or losing
compare-and-set (`try_lock` / `lock`), a waiter registration past the
threshold (`lock`'s slow path, only after a failed compare-and-set, hence
while Held), or a guard destruction (`MutexGuard::drop`, which requires an
outstanding guard to exist). -/
inductive ConcStep : ConcState → ConcState → Prop where
  | acquireWin (s : ConcState) (r2 : LockRepresentation)
      (h : s.rep.try_write_lock = (true, r2)) :
      ConcStep s ⟨r2, s.guards + 1⟩
  | acquireLose (s : ConcState) (r2 : LockRepresentation)
      (h : s.rep.try_write_lock = (false, r2)) :
      ConcStep s ⟨r2, s.guards⟩
  | subscribe (s : ConcState) (tid : Nat)
      (h : s.rep.status = Status.Held) :
      ConcStep s ⟨s.rep.subscribe_write tid, s.guards⟩
  | dropGuard (s : ConcState) (h : 0 < s.guards) :
      ConcStep s ⟨s.rep.unlock, s.guards - 1⟩

/-- States reachable from a freshly registered entry (Free, no waiters, no
guard) by any interleaving of the atomic table operations. -/
inductive Reach : ConcState → Prop where
  | init : Reach ⟨⟨Status.Free, []⟩, 0⟩
  | step {s s2 : ConcState} : Reach s → ConcStep s s2 → Reach s2

/-- The coupling invariant: the guard count is determined by the status —
one outstanding guard iff Held. -/
def guardInv (s : ConcState) : Prop :=
  s.guards = (match s.rep.status with
    | Status.Held => 1
    | Status.Free => 0)

/-! Sample states used to instantiate the theorems below. -/

/-- A registered handle whose entry is Held, unpoisoned, protecting `7`. -/
def sampleHeld : SysState Nat :=
  { manager := { next_key := 1, locks := [(0, ⟨Status.Held, []⟩)] },
    mux := { key := 0, poisoned := false, inner := 7 } }

/-- A registered handle whose entry is Free and whose flag is poisoned. -/
def sampleFreePoisoned : SysState Nat :=
  { manager := { next_key := 1, locks := [(0, ⟨Status.Free, []⟩)] },
    mux := { key := 0, poisoned := true, inner := 7 } }

/-- A registered handle whose entry is Held and whose flag is poisoned. -/
def sampleHeldPoisoned : SysState Nat :=
  { manager := { next_key := 1, locks := [(0, ⟨Status.Held, []⟩)] },
    mux := { key := 0, poisoned := true, inner := 7 } }

/-- Status and flag of the intermediate state of a panicking drop, after
the `unlock()` statement and before the flag write. -/
def dropMidObservation (s : SysState Nat) : Option (Option Status × Bool) :=
  (MutexGuard.dropGuardMid s).map (fun s2 => (s2.statusOf, s2.mux.poisoned))

/-! Helper lemmas about the table and the modelled entry operations. -/

theorem try_write_lock_of_held (r : LockRepresentation)
    (h : r.status = Status.Held) :
    r.try_write_lock = (false, r) := by
  simp [LockRepresentation.try_write_lock, h]

theorem try_write_lock_of_free (r : LockRepresentation)
    (h : r.status = Status.Free) :
    r.try_write_lock = (true, { r with status := Status.Held }) := by
  simp [LockRepresentation.try_write_lock, h]

theorem subscribe_write_status (tid : Nat) (r : LockRepresentation) :
    (r.subscribe_write tid).status = r.status := by
  by_cases h : tid ∈ r.waiters <;>
    simp [LockRepresentation.subscribe_write, h]

theorem updateLock_lookup_self (k : Nat) (r : LockRepresentation) :
    ∀ l, lookupLock k l = some r → updateLock k r l = l := by
  intro l
  induction l with
  | nil => intro h; simp [lookupLock] at h
  | cons p rest ih =>
    intro h
    obtain ⟨k2, r2⟩ := p
    by_cases hk : k2 = k
    · simp [lookupLock, hk] at h
      simp [updateLock, hk, h]
    · simp [lookupLock, hk] at h
      simp [updateLock, hk, ih h]

theorem lookupLock_updateLock_eq (k : Nat) (r : LockRepresentation) :
    ∀ l, (lookupLock k l).isSome →
      lookupLock k (updateLock k r l) = some r := by
  intro l
  induction l with
  | nil => intro h; simp [lookupLock] at h
  | cons p rest ih =>
    intro h
    obtain ⟨k2, r2⟩ := p
    by_cases hk : k2 = k
    · simp [updateLock, hk, lookupLock]
    · simp [lookupLock, hk] at h
      simp [updateLock, hk, lookupLock, ih h]

theorem lookupLock_updateLock_ne (k k2 : Nat) (r : LockRepresentation)
    (hne : k2 ≠ k) :
    ∀ l, lookupLock k2 (updateLock k r l) = lookupLock k2 l := by
  intro l
  induction l with
  | nil => simp [updateLock]
  | cons p rest ih =>
    obtain ⟨k3, r3⟩ := p
    by_cases hk : k3 = k
    · simp [updateLock, hk, lookupLock, Ne.symm hne]
    · simp [updateLock, hk, lookupLock, ih]

theorem guardInv_step {s s2 : ConcState} (hs : guardInv s)
    (h : ConcStep s s2) : guardInv s2 := by
  cases h with
  | acquireWin r2 hw =>
    cases hst : s.rep.status with
    | Free =>
      rw [try_write_lock_of_free s.rep hst] at hw
      have hr2 : ({ s.rep with status := Status.Held } : LockRepresentation)
          = r2 := congrArg Prod.snd hw
      unfold guardInv at hs ⊢
      rw [hst] at hs
      simp [← hr2, hs]
    | Held =>
      rw [try_write_lock_of_held s.rep hst] at hw
      simp at hw
  | acquireLose r2 hw =>
    cases hst : s.rep.status with
    | Free =>
      rw [try_write_lock_of_free s.rep hst] at hw
      simp at hw
    | Held =>
      rw [try_write_lock_of_held s.rep hst] at hw
      have hr2 : s.rep = r2 := congrArg Prod.snd hw
      unfold guardInv at hs ⊢
      rw [hst] at hs
      simp [← hr2, hst, hs]
  | subscribe tid hst =>
    unfold guardInv at hs ⊢
    rw [subscribe_write_status, hst]
    rw [hst] at hs
    exact hs
  | dropGuard hpos =>
    unfold guardInv at hs ⊢
    cases hst : s.rep.status with
    | Free =>
      rw [hst] at hs
      simp at hs
      omega
    | Held =>
      rw [hst] at hs
      simp at hs
      simp [LockRepresentation.unlock, hs]

theorem guardInv_reach {s : ConcState} (h : Reach s) : guardInv s := by
  induction h with
  | init => rfl
  | step hr hstep ih => exact guardInv_step ih hstep

/-!  Claim theorems.  -/

/-- C1 counterexample: in a failed `lock` iteration past the 1-second
threshold (elapsed = 2000 ms) the trace is: acquire the internal lock,
failed compare-and-set, subscribe, analyse, yield, release the internal
lock — so the internal table lock is released only after `yield_now()`,
refuting the claimed release-before-yield order. -/
theorem C1_counterexample_yield_before_release :
    lockIterationEvents false 2000 =
      [Event.acquireTableLock, Event.tryWriteLock false,
       Event.subscribeWrite, Event.analyseCall, Event.yieldNow,
       Event.releaseTableLock] ∧
    ¬ idxOf Event.releaseTableLock (lockIterationEvents false 2000) <
        idxOf Event.yieldNow (lockIterationEvents false 2000) := by
  decide

/-- C1 (amended): on a failed attempt past the 1-second threshold, the
waiter registration and the `analyse` call are performed while still
holding the Coordinator's internal table lock, and the processor yield
also happens while that lock is still held; the lock is released only at
the end of the loop iteration, after the yield and before the next
attempt. -/
theorem C1_slow_path_event_order (elapsedMs : Nat) (h : 1000 < elapsedMs) :
    idxOf Event.acquireTableLock (lockIterationEvents false elapsedMs) <
      idxOf Event.subscribeWrite (lockIterationEvents false elapsedMs) ∧
    idxOf Event.subscribeWrite (lockIterationEvents false elapsedMs) <
      idxOf Event.analyseCall (lockIterationEvents false elapsedMs) ∧
    idxOf Event.analyseCall (lockIterationEvents false elapsedMs) <
      idxOf Event.yieldNow (lockIterationEvents false elapsedMs) ∧
    idxOf Event.yieldNow (lockIterationEvents false elapsedMs) <
      idxOf Event.releaseTableLock (lockIterationEvents false elapsedMs) := by
  simp only [lockIterationEvents, Bool.false_eq_true, if_false, if_pos h]
  decide

/-- Witness for the amended C1 at elapsed = 2000 ms. -/
theorem C1_slow_path_event_order_witness :
    idxOf Event.acquireTableLock (lockIterationEvents false 2000) <
      idxOf Event.subscribeWrite (lockIterationEvents false 2000) ∧
    idxOf Event.subscribeWrite (lockIterationEvents false 2000) <
      idxOf Event.analyseCall (lockIterationEvents false 2000) ∧
    idxOf Event.analyseCall (lockIterationEvents false 2000) <
      idxOf Event.yieldNow (lockIterationEvents false 2000) ∧
    idxOf Event.yieldNow (lockIterationEvents false 2000) <
      idxOf Event.releaseTableLock (lockIterationEvents false 2000) :=
  C1_slow_path_event_order 2000 (by decide)

/-- C2 counterexample: dropping a guard on a Held, unpoisoned handle while
panicking performs the Held→Free flip first: the intermediate state of
`MutexGuard::drop` after the `unlock()` statement already has status Free
with the poisoned flag still false, and in the drop trace the flag write
does not precede the unlock. -/
theorem C2_counterexample_flip_before_poison :
    dropMidObservation sampleHeld = some (some Status.Free, false) ∧
    ¬ idxOf Event.setPoisonedFlag (dropGuardEvents true) <
        idxOf Event.unlockEntry (dropGuardEvents true) := by
  decide

/-- C2 (amended): when a guard is dropped during abnormal unwind, the
Held→Free transition is performed first and the poisoned flag is set
afterwards — but both happen inside the same critical section of the
Coordinator's internal lock (the flag write precedes the lock release),
and the completed drop leaves the flag true and the entry Free, so any
subsequent acquirer observes Poisoned together with the now-Free
status. -/
theorem C2_poison_set_within_critical_section (T : Type) (s : SysState T)
    (r : LockRepresentation)
    (hl : lookupLock s.mux.key s.manager.locks = some r) :
    (MutexGuard.dropGuard true s).map (fun s2 => s2.mux.poisoned) =
      some true ∧
    (MutexGuard.dropGuard true s).map SysState.statusOf =
      some (some Status.Free) ∧
    idxOf Event.unlockEntry (dropGuardEvents true) <
      idxOf Event.setPoisonedFlag (dropGuardEvents true) ∧
    idxOf Event.setPoisonedFlag (dropGuardEvents true) <
      idxOf Event.releaseTableLock (dropGuardEvents true) := by
  have hsome : (lookupLock s.mux.key s.manager.locks).isSome := by
    simp [hl]
  refine ⟨?_, ?_, by decide, by decide⟩
  · simp [MutexGuard.dropGuard, hl]
  · simp [MutexGuard.dropGuard, hl, SysState.statusOf,
      lookupLock_updateLock_eq _ _ _ hsome, LockRepresentation.unlock]

/-- Witness for the amended C2 on a concrete Held, unpoisoned handle. -/
theorem C2_poison_set_within_critical_section_witness :
    (MutexGuard.dropGuard true sampleHeld).map (fun s2 => s2.mux.poisoned) =
      some true ∧
    (MutexGuard.dropGuard true sampleHeld).map SysState.statusOf =
      some (some Status.Free) ∧
    idxOf Event.unlockEntry (dropGuardEvents true) <
      idxOf Event.setPoisonedFlag (dropGuardEvents true) ∧
    idxOf Event.setPoisonedFlag (dropGuardEvents true) <
      idxOf Event.releaseTableLock (dropGuardEvents true) :=
  C2_poison_set_within_critical_section Nat sampleHeld
    ⟨Status.Held, []⟩ (by decide)

/-- C3: mutual exclusion — in every reachable state of the interleaving of
atomic table operations of threads contending for one handle, if an
outstanding guard exists then it is the only one, and no further
compare-and-set can win until that guard is destroyed. -/
theorem C3_mutual_exclusion (s : ConcState) (h : Reach s)
    (hpos : 0 < s.guards) :
    s.guards = 1 ∧ (s.rep.try_write_lock).1 = false := by
  have hinv := guardInv_reach h
  unfold guardInv at hinv
  cases hst : s.rep.status with
  | Free =>
    rw [hst] at hinv
    simp at hinv
    exact absurd hinv (by omega)
  | Held =>
    rw [hst] at hinv
    simp at hinv
    exact ⟨hinv, by rw [try_write_lock_of_held s.rep hst]⟩

/-- Witness for C3 at the state reached by one winning acquisition. -/
theorem C3_mutual_exclusion_witness :
    (ConcState.mk ⟨Status.Held, []⟩ 1).guards = 1 ∧
    ((ConcState.mk ⟨Status.Held, []⟩ 1).rep.try_write_lock).1 = false :=
  C3_mutual_exclusion ⟨⟨Status.Held, []⟩, 1⟩
    (Reach.step Reach.init
      (ConcStep.acquireWin ⟨⟨Status.Free, []⟩, 0⟩ ⟨Status.Held, []⟩ rfl))
    (by decide)

/-- C4: a winning acquisition on a poisoned handle still returns the
guard, wrapped in the Poisoned indicator, for both `try_lock` and
`lock` — a warning-carrying success, never a refusal of access. -/
theorem C4_poisoned_acquisition_returns_guard (T : Type) (s : SysState T)
    (r : LockRepresentation) (elapsedMs tid : Nat)
    (hl : lookupLock s.mux.key s.manager.locks = some r)
    (hfree : r.status = Status.Free) (hp : s.mux.poisoned = true) :
    (Mutex.try_lock s).map Prod.fst =
      some (TryLockResult.poisonErr ⟨s.mux⟩) ∧
    (Mutex.lockIteration elapsedMs tid s).map Prod.fst =
      some (LockOutcome.ret (LockResult.poisonErr ⟨s.mux⟩)) := by
  constructor
  · simp [Mutex.try_lock, hl, try_write_lock_of_free r hfree,
      Mutex.is_poisoned, hp]
  · simp [Mutex.lockIteration, hl, try_write_lock_of_free r hfree,
      Mutex.is_poisoned, hp]

/-- Witness for C4 on a concrete Free, poisoned handle. -/
theorem C4_poisoned_acquisition_returns_guard_witness :
    (Mutex.try_lock sampleFreePoisoned).map Prod.fst =
      some (TryLockResult.poisonErr ⟨sampleFreePoisoned.mux⟩) ∧
    (Mutex.lockIteration 0 0 sampleFreePoisoned).map Prod.fst =
      some (LockOutcome.ret (LockResult.poisonErr ⟨sampleFreePoisoned.mux⟩)) :=
  C4_poisoned_acquisition_returns_guard Nat sampleFreePoisoned
    ⟨Status.Free, []⟩ 0 0 (by decide) rfl rfl

/-- C5: `try_lock` on an already-Held entry performs exactly one
compare-and-set, returns WouldBlock, and leaves the entire state — status,
waiters, poisoned flag and protected value — unchanged; its critical
section contains no waiter registration, no analyse call and no yield. -/
theorem C5_try_lock_busy_no_effect (T : Type) (s : SysState T)
    (r : LockRepresentation)
    (hl : lookupLock s.mux.key s.manager.locks = some r)
    (hheld : r.status = Status.Held) :
    Mutex.try_lock s = some (TryLockResult.wouldBlock, s) ∧
    (tryLockEvents false).count (Event.tryWriteLock false) = 1 ∧
    Event.subscribeWrite ∉ tryLockEvents false ∧
    Event.analyseCall ∉ tryLockEvents false ∧
    Event.yieldNow ∉ tryLockEvents false := by
  refine ⟨?_, by decide, by decide, by decide, by decide⟩
  have hupd := updateLock_lookup_self s.mux.key r s.manager.locks hl
  simp [Mutex.try_lock, hl, try_write_lock_of_held r hheld, hupd]

/-- Witness for C5 on a concrete Held handle. -/
theorem C5_try_lock_busy_no_effect_witness :
    Mutex.try_lock sampleHeld = some (TryLockResult.wouldBlock, sampleHeld) ∧
    (tryLockEvents false).count (Event.tryWriteLock false) = 1 ∧
    Event.subscribeWrite ∉ tryLockEvents false ∧
    Event.analyseCall ∉ tryLockEvents false ∧
    Event.yieldNow ∉ tryLockEvents false :=
  C5_try_lock_busy_no_effect Nat sampleHeld ⟨Status.Held, []⟩ (by decide) rfl

/-- Outcome test: whether a `lock` iteration returned a guard with no
Poisoned indication. -/
def LockOutcome.isCleanOk : LockOutcome G → Bool
  | LockOutcome.ret (LockResult.ok _) => true
  | _ => false

/-- C6: in `lock`'s loop, the waiter registration, the `analyse` call and
the yield happen on a failed attempt exactly when the elapsed time exceeds
the 1-second threshold; a failed attempt at or under the threshold closes
the table access and retries immediately — no registration, no analyse, no
yield, and the state is left untouched. -/
theorem C6_threshold_gates_slow_path (T : Type) (s : SysState T)
    (r : LockRepresentation) (eOver eUnder tid : Nat)
    (hl : lookupLock s.mux.key s.manager.locks = some r)
    (hheld : r.status = Status.Held)
    (hover : 1000 < eOver) (hunder : eUnder ≤ 1000) :
    (Event.subscribeWrite ∈ lockIterationEvents false eOver ∧
     Event.analyseCall ∈ lockIterationEvents false eOver ∧
     Event.yieldNow ∈ lockIterationEvents false eOver) ∧
    Mutex.lockIteration eOver tid s =
      some (LockOutcome.retrySlow,
        { s with manager :=
            { s.manager with
                locks := updateLock s.mux.key (r.subscribe_write tid)
                  s.manager.locks } }) ∧
    (Event.subscribeWrite ∉ lockIterationEvents false eUnder ∧
     Event.analyseCall ∉ lockIterationEvents false eUnder ∧
     Event.yieldNow ∉ lockIterationEvents false eUnder) ∧
    lockIterationEvents false eUnder =
      [Event.acquireTableLock, Event.tryWriteLock false,
       Event.releaseTableLock] ∧
    Mutex.lockIteration eUnder tid s = some (LockOutcome.retryTight, s) := by
  have hnot : ¬ 1000 < eUnder := by omega
  have hupd := updateLock_lookup_self s.mux.key r s.manager.locks hl
  refine ⟨?_, ?_, ?_, ?_, ?_⟩
  · simp [lockIterationEvents, hover]
  · simp [Mutex.lockIteration, hl, try_write_lock_of_held r hheld, hover]
  · simp [lockIterationEvents, hnot]
  · simp [lockIterationEvents, hnot]
  · simp [Mutex.lockIteration, hl, try_write_lock_of_held r hheld, hnot,
      hupd]

/-- Witness for C6 on a concrete Held handle, at 2000 ms and 500 ms. -/
theorem C6_threshold_gates_slow_path_witness :
    (Event.subscribeWrite ∈ lockIterationEvents false 2000 ∧
     Event.analyseCall ∈ lockIterationEvents false 2000 ∧
     Event.yieldNow ∈ lockIterationEvents false 2000) ∧
    Mutex.lockIteration 2000 3 sampleHeld =
      some (LockOutcome.retrySlow,
        { sampleHeld with manager :=
            { sampleHeld.manager with
                locks := updateLock sampleHeld.mux.key
                  (LockRepresentation.subscribe_write 3 ⟨Status.Held, []⟩)
                  sampleHeld.manager.locks } }) ∧
    (Event.subscribeWrite ∉ lockIterationEvents false 500 ∧
     Event.analyseCall ∉ lockIterationEvents false 500 ∧
     Event.yieldNow ∉ lockIterationEvents false 500) ∧
    lockIterationEvents false 500 =
      [Event.acquireTableLock, Event.tryWriteLock false,
       Event.releaseTableLock] ∧
    Mutex.lockIteration 500 3 sampleHeld =
      some (LockOutcome.retryTight, sampleHeld) :=
  C6_threshold_gates_slow_path Nat sampleHeld ⟨Status.Held, []⟩ 2000 500 3
    (by decide) rfl (by decide) (by decide)

/-- C7 counterexample: on a handle whose poisoned flag is set but whose
entry is Held, `try_lock` reports WouldBlock — a report carrying no
Poisoned indication — so it is not the case that every subsequent
try_acquire on a poisoned handle reports Poisoned. -/
theorem C7_counterexample_busy_hides_poison :
    sampleHeldPoisoned.mux.poisoned = true ∧
    (Mutex.try_lock sampleHeldPoisoned).map Prod.fst =
      some TryLockResult.wouldBlock ∧
    (TryLockResult.wouldBlock : TryLockResult (MutexGuard Nat)).isPoisoned =
      false := by
  decide

/-- C7 (amended): poisoning is sticky — no `try_lock`, `lock` attempt or
guard drop ever resets the flag — and a poisoned handle never grants
access unflagged: a winning `try_lock` or `lock` attempt, `get_mut` and
`into_inner` all report Poisoned; only a losing `try_lock`, which grants
nothing, reports Busy without a poison indication. -/
theorem C7_poison_sticky_and_reported (T : Type) (s : SysState T)
    (r : LockRepresentation) (elapsedMs tid : Nat) (panicking : Bool)
    (hl : lookupLock s.mux.key s.manager.locks = some r)
    (hp : s.mux.poisoned = true) :
    (Mutex.try_lock s).map (fun p => p.2.mux.poisoned) = some true ∧
    (Mutex.lockIteration elapsedMs tid s).map
      (fun p => p.2.mux.poisoned) = some true ∧
    (MutexGuard.dropGuard panicking s).map (fun s2 => s2.mux.poisoned) =
      some true ∧
    Mutex.is_poisoned s.mux = true ∧
    (Mutex.get_mut s.mux).isPoisoned = true ∧
    (Mutex.into_inner s.mux).isPoisoned = true ∧
    (Mutex.try_lock s).map
      (fun p => TryLockResult.hasGuard p.1 &&
        !TryLockResult.isPoisoned p.1) = some false ∧
    (Mutex.lockIteration elapsedMs tid s).map
      (fun p => LockOutcome.isCleanOk p.1) = some false := by
  have h1 : (Mutex.try_lock s).map (fun p => p.2.mux.poisoned) =
      some true := by
    cases hst : r.status <;>
      simp [Mutex.try_lock, hl, LockRepresentation.try_write_lock, hst,
        Mutex.is_poisoned, hp]
  have h2 : (Mutex.lockIteration elapsedMs tid s).map
      (fun p => p.2.mux.poisoned) = some true := by
    by_cases he : 1000 < elapsedMs <;>
      cases hst : r.status <;>
        simp [Mutex.lockIteration, hl, LockRepresentation.try_write_lock,
          hst, Mutex.is_poisoned, hp, he]
  have h3 : (MutexGuard.dropGuard panicking s).map
      (fun s2 => s2.mux.poisoned) = some true := by
    cases panicking <;> simp [MutexGuard.dropGuard, hl, hp]
  have h7 : (Mutex.try_lock s).map
      (fun p => TryLockResult.hasGuard p.1 &&
        !TryLockResult.isPoisoned p.1) = some false := by
    cases hst : r.status <;>
      simp [Mutex.try_lock, hl, LockRepresentation.try_write_lock, hst,
        Mutex.is_poisoned, hp, TryLockResult.hasGuard,
        TryLockResult.isPoisoned]
  have h8 : (Mutex.lockIteration elapsedMs tid s).map
      (fun p => LockOutcome.isCleanOk p.1) = some false := by
    by_cases he : 1000 < elapsedMs <;>
      cases hst : r.status <;>
        simp [Mutex.lockIteration, hl, LockRepresentation.try_write_lock,
          hst, Mutex.is_poisoned, hp, he, LockOutcome.isCleanOk]
  exact ⟨h1, h2, h3, by simp [Mutex.is_poisoned, hp],
    by simp [Mutex.get_mut, hp, LockResult.isPoisoned],
    by simp [Mutex.into_inner, hp, LockResult.isPoisoned], h7, h8⟩

/-- Witness for the amended C7 on a concrete poisoned Held handle. -/
theorem C7_poison_sticky_and_reported_witness :
    (Mutex.try_lock sampleHeldPoisoned).map
      (fun p => p.2.mux.poisoned) = some true ∧
    (Mutex.lockIteration 0 0 sampleHeldPoisoned).map
      (fun p => p.2.mux.poisoned) = some true ∧
    (MutexGuard.dropGuard false sampleHeldPoisoned).map
      (fun s2 => s2.mux.poisoned) = some true ∧
    Mutex.is_poisoned sampleHeldPoisoned.mux = true ∧
    (Mutex.get_mut sampleHeldPoisoned.mux).isPoisoned = true ∧
    (Mutex.into_inner sampleHeldPoisoned.mux).isPoisoned = true ∧
    (Mutex.try_lock sampleHeldPoisoned).map
      (fun p => TryLockResult.hasGuard p.1 &&
        !TryLockResult.isPoisoned p.1) = some false ∧
    (Mutex.lockIteration 0 0 sampleHeldPoisoned).map
      (fun p => LockOutcome.isCleanOk p.1) = some false :=
  C7_poison_sticky_and_reported Nat sampleHeldPoisoned ⟨Status.Held, []⟩
    0 0 false (by decide) rfl

/-- C8: `into_inner` (consume) always returns the protected value and
`get_mut` (access_without_lock) always grants the reference; each wraps
its result in the Poisoned error exactly when the sticky flag is set, and
neither ever refuses access on account of poisoning. -/
theorem C8_consume_and_direct_access_never_refuse (T : Type) (m : Mutex T) :
    (Mutex.into_inner m).val = m.inner ∧
    (Mutex.get_mut m).val = m.inner ∧
    (Mutex.into_inner m).isPoisoned = m.poisoned ∧
    (Mutex.get_mut m).isPoisoned = m.poisoned := by
  cases hp : m.poisoned <;>
    simp [Mutex.into_inner, Mutex.get_mut, hp, LockResult.val,
      LockResult.isPoisoned]

/-- C9: if the handle's identity is present in the Coordinator's table, the
unwrapped lookups in `try_lock`, `lock` and guard drop all succeed, and
the invariant backing the assumption holds: `new` registers the identity
(Free, no waiters) before returning the handle, and none of the three
operations removes the identity from the table — so the panic branch is
unreachable. -/
theorem C9_lookup_never_panics (T : Type) (s : SysState T)
    (r : LockRepresentation) (elapsedMs tid : Nat) (panicking : Bool)
    (m0 : LockManager) (v : T)
    (hl : lookupLock s.mux.key s.manager.locks = some r) :
    (Mutex.try_lock s).isSome ∧
    (Mutex.lockIteration elapsedMs tid s).isSome ∧
    (MutexGuard.dropGuard panicking s).isSome ∧
    lookupLock (Mutex.new m0 v).mux.key (Mutex.new m0 v).manager.locks =
      some ⟨Status.Free, []⟩ ∧
    (Mutex.try_lock s).map
      (fun p => (lookupLock p.2.mux.key p.2.manager.locks).isSome) =
      some true ∧
    (Mutex.lockIteration elapsedMs tid s).map
      (fun p => (lookupLock p.2.mux.key p.2.manager.locks).isSome) =
      some true ∧
    (MutexGuard.dropGuard panicking s).map
      (fun s2 => (lookupLock s2.mux.key s2.manager.locks).isSome) =
      some true := by
  have hsome : (lookupLock s.mux.key s.manager.locks).isSome := by
    simp [hl]
  refine ⟨?_, ?_, ?_, ?_, ?_, ?_, ?_⟩
  · cases hpois : s.mux.poisoned <;> cases hst : r.status <;>
      simp [Mutex.try_lock, hl, LockRepresentation.try_write_lock, hst,
        Mutex.is_poisoned, hpois]
  · by_cases he : 1000 < elapsedMs <;>
      cases hpois : s.mux.poisoned <;>
        cases hst : r.status <;>
          simp [Mutex.lockIteration, hl, LockRepresentation.try_write_lock,
            hst, Mutex.is_poisoned, hpois, he]
  · cases panicking <;> simp [MutexGuard.dropGuard, hl]
  · simp [Mutex.new, LockManager.create_lock, lookupLock]
  · cases hpois : s.mux.poisoned <;> cases hst : r.status <;>
      simp [Mutex.try_lock, hl, LockRepresentation.try_write_lock, hst,
        Mutex.is_poisoned, hpois, lookupLock_updateLock_eq _ _ _ hsome]
  · by_cases he : 1000 < elapsedMs <;>
      cases hpois : s.mux.poisoned <;>
        cases hst : r.status <;>
          simp [Mutex.lockIteration, hl, LockRepresentation.try_write_lock,
            hst, Mutex.is_poisoned, hpois, he,
            lookupLock_updateLock_eq _ _ _ hsome]
  · cases panicking <;>
      simp [MutexGuard.dropGuard, hl,
        lookupLock_updateLock_eq _ _ _ hsome]

/-- Witness for C9 on a concrete Held handle and a concrete manager. -/
theorem C9_lookup_never_panics_witness :
    (Mutex.try_lock sampleHeld).isSome ∧
    (Mutex.lockIteration 0 0 sampleHeld).isSome ∧
    (MutexGuard.dropGuard false sampleHeld).isSome ∧
    lookupLock (Mutex.new ⟨0, []⟩ (5 : Nat)).mux.key
      (Mutex.new ⟨0, []⟩ (5 : Nat)).manager.locks =
      some ⟨Status.Free, []⟩ ∧
    (Mutex.try_lock sampleHeld).map
      (fun p => (lookupLock p.2.mux.key p.2.manager.locks).isSome) =
      some true ∧
    (Mutex.lockIteration 0 0 sampleHeld).map
      (fun p => (lookupLock p.2.mux.key p.2.manager.locks).isSome) =
      some true ∧
    (MutexGuard.dropGuard false sampleHeld).map
      (fun s2 => (lookupLock s2.mux.key s2.manager.locks).isSome) =
      some true :=
  C9_lookup_never_panics Nat sampleHeld ⟨Status.Held, []⟩ 0 0 false
    ⟨0, []⟩ 5 (by decide)

/-- C10: dropping a guard while the thread is not panicking performs only
the Held→Free transition (with its waiter clearing) on the handle's own
identity: the handle — poisoned flag and protected value — is unchanged,
its entry becomes Free with no waiters, and every other identity's entry
is untouched. -/
theorem C10_normal_drop_frame (T : Type) (s : SysState T)
    (r : LockRepresentation) (k : Nat)
    (hl : lookupLock s.mux.key s.manager.locks = some r)
    (hk : k ≠ s.mux.key) :
    (MutexGuard.dropGuard false s).map (fun s2 => s2.mux) = some s.mux ∧
    (MutexGuard.dropGuard false s).map
      (fun s2 => lookupLock s2.mux.key s2.manager.locks) =
      some (some ⟨Status.Free, []⟩) ∧
    (MutexGuard.dropGuard false s).map
      (fun s2 => lookupLock k s2.manager.locks) =
      some (lookupLock k s.manager.locks) := by
  have hsome : (lookupLock s.mux.key s.manager.locks).isSome := by
    simp [hl]
  refine ⟨?_, ?_, ?_⟩
  · simp [MutexGuard.dropGuard, hl]
  · simp [MutexGuard.dropGuard, hl,
      lookupLock_updateLock_eq _ _ _ hsome, LockRepresentation.unlock]
  · simp [MutexGuard.dropGuard, hl,
      lookupLock_updateLock_ne s.mux.key k r.unlock hk s.manager.locks]

/-- Witness for C10 on a concrete Held handle, framing identity 5. -/
theorem C10_normal_drop_frame_witness :
    (MutexGuard.dropGuard false sampleHeld).map (fun s2 => s2.mux) =
      some sampleHeld.mux ∧
    (MutexGuard.dropGuard false sampleHeld).map
      (fun s2 => lookupLock s2.mux.key s2.manager.locks) =
      some (some ⟨Status.Free, []⟩) ∧
    (MutexGuard.dropGuard false sampleHeld).map
      (fun s2 => lookupLock 5 s2.manager.locks) =
      some (lookupLock 5 sampleHeld.manager.locks) :=
  C10_normal_drop_frame Nat sampleHeld ⟨Status.Held, []⟩ 5 (by decide)
    (by decide)

end DeadlocksDebugger
